import Mathlib

/-!
Verification of the Voice-Scheduling-Agent dialogue engine.

Shallow embedding of the three dialogue variants of the repository:
* `Agent`  — the step-field machine of `agent_state.py`,
* `Chat`   — the extractor-driven machine of `chat.py`,
* `Voice`  — the transcript history handling of `voice.py`.

Python string primitives (`str.strip`, `str.lower`, slicing) are modelled
as `pystrip`, `pylower`, `pyslice`; Python truthiness of optional strings
is modelled as `truthy`/`pyOr`.
-/

/-- Model of Python `str.strip()` on the character list: drop leading and
trailing whitespace. -/
def stripList (l : List Char) : List Char :=
  ((l.dropWhile Char.isWhitespace).reverse.dropWhile Char.isWhitespace).reverse

/-- Model of Python `str.strip()`. -/
def pystrip (s : String) : String := String.mk (stripList s.toList)

/-- Model of Python `str.lower()` (ASCII case mapping). -/
def pylower (s : String) : String := String.mk (s.toList.map Char.toLower)

/-- Model of Python slicing `s[:n]` (by code points). -/
def pyslice (s : String) (n : Nat) : String := String.mk (s.toList.take n)

/-- Python truthiness of an optional string: `None` and `""` are falsy. -/
def truthy : Option String → Bool
  | none => false
  | some s => !s.isEmpty

/-- Python `a or b` for an optional string `a` and default `b`. -/
def pyOr (a : Option String) (b : String) : String :=
  match a with
  | none => b
  | some s => if s.isEmpty then b else s

/-- Python `a or b` on strings (empty string is falsy). -/
def pyOrS (a b : String) : String := if a.isEmpty then b else a

/-- Python `f"{x}"` on an optional string: `None` prints as `"None"`. -/
def optStr : Option String → String
  | none => "None"
  | some s => s

namespace Agent

/-- Decides the regex `EMAIL_RE = ^[^@\s]+@[^@\s]+\.[^@\s]+$` of
`agent_state.py`: a non-empty run of non-`@`, non-whitespace characters,
an `@`, then a non-`@`, non-whitespace remainder containing a `.` that is
neither its first nor its last character (so that both the `[^@\s]+`
before and after the dot are non-empty).  The first component is computed
with `span` at the first `@`, which is where any full match must place
the literal `@` since all three bracket classes exclude `@`. -/
def email_re_match (l : List Char) : Bool :=
  let p := l.span (fun c => !(c == '@'))
  match p.2 with
  | [] => false
  | _ :: rest =>
    !p.1.isEmpty
    && p.1.all (fun c => !(c == '@') && !c.isWhitespace)
    && rest.all (fun c => !(c == '@') && !c.isWhitespace)
    && ((rest.drop 1).dropLast).contains '.'

/-- Function `is_valid_email` of `agent_state.py`:
`EMAIL_RE.match((s or "").strip().lower())`. -/
def is_valid_email (s : String) : Bool :=
  email_re_match (pylower (pystrip s)).toList

/-- Function `normalize_phone` of `agent_state.py`:
`re.sub(r"[^\d+]", "", s.strip())` — keep only digits and `+`. -/
def normalize_phone (s : String) : String :=
  String.mk ((pystrip s).toList.filter (fun c => c.isDigit || c == '+'))

/-- Character class `[0-9\s\-()]` of `PHONE_RE`. -/
def phone_body_char (c : Char) : Bool :=
  c.isDigit || c.isWhitespace || c == '-' || c == '(' || c == ')'

/-- Decides the regex `PHONE_RE = ^\+?[0-9][0-9\s\-()]{6,}$` of
`agent_state.py`: an optional leading `+`, one digit, then at least six
characters of the class `[0-9\s\-()]`, end of string.  (Backtracking on
`\+?` is irrelevant: a leading `+` can never match `[0-9]`.) -/
def phone_re_match (l : List Char) : Bool :=
  let l2 := if l.head? = some '+' then l.tail else l
  match l2 with
  | [] => false
  | c :: rest => c.isDigit && decide (6 ≤ rest.length) && rest.all phone_body_char

/-- Function `is_valid_phone` of `agent_state.py`:
`PHONE_RE.match(normalize_phone(s))`. -/
def is_valid_phone (s : String) : Bool :=
  phone_re_match (normalize_phone s).toList

/-- Function `parse_yes_no` of `agent_state.py`. -/
def parse_yes_no (text : String) : Option Bool :=
  let t := pylower (pystrip text)
  if t ∈ ["yes", "y", "yeah", "yep", "confirm", "correct", "ok", "okay"] then some true
  else if t ∈ ["no", "n", "nope", "cancel", "restart"] then some false
  else none

/-- Dataclass `BookingState` of `agent_state.py`
(`ask_email -> ask_phone -> confirm -> done`). -/
structure BookingState where
  step : String := "ask_email"
  email : Option String := none
  phone : Option String := none
  title : String := "Scheduled Meeting"
deriving Repr, DecidableEq

/-- The `{"type": "create_meeting"}` action of `handle_user_message`. -/
inductive AgentAction
  | create_meeting
deriving Repr, DecidableEq

/-- The `{"state", "reply", "action"}` dictionary returned by
`handle_user_message`. -/
structure TurnResult where
  state : BookingState
  reply : String
  action : Option AgentAction
deriving Repr, DecidableEq

/-- Function `build_confirmation` of `agent_state.py` (f-strings print a `None`
field as `None`). -/
def build_confirmation (st : BookingState) : String :=
  "Please confirm the details:\n- Email: " ++ optStr st.email
    ++ "\n- Phone: " ++ optStr st.phone
    ++ "\n\nReply with **yes** to confirm, or **no** to restart."

/-- Function `handle_user_message` of `agent_state.py`. -/
def handle_user_message (state : BookingState) (user_text0 : String) : TurnResult :=
  let user_text := pystrip user_text0
  if state.step = "ask_email" then
    if !is_valid_email user_text then
      { state := state,
        reply := "Please provide a valid email address (e.g., john.doe@gmail.com).",
        action := none }
    else
      let state := { state with email := some (pylower (pystrip user_text)), step := "ask_phone" }
      { state := state,
        reply := "Thanks! Now please provide your phone number (digits, may include +).",
        action := none }
  else if state.step = "ask_phone" then
    if !is_valid_phone user_text then
      { state := state,
        reply := "Please provide a valid phone number (e.g., +14155552671).",
        action := none }
    else
      let state := { state with phone := some (normalize_phone user_text), step := "confirm" }
      { state := state, reply := build_confirmation state, action := none }
  else if state.step = "confirm" then
    match parse_yes_no user_text with
    | none =>
      { state := state,
        reply := "Please reply with **yes** to confirm or **no** to restart.",
        action := none }
    | some false =>
      { state := { step := "ask_email", title := state.title },
        reply := "No problem — let’s start over.\nWhat’s your email?",
        action := none }
    | some true =>
      { state := { state with step := "done" },
        reply := "Great — creating your meeting now…",
        action := some AgentAction.create_meeting }
  else if state.step = "done" then
    { state := state,
      reply := "This session is already completed. Clear to start a new one.",
      action := none }
  else
    { state := state, reply := "I’m not sure what to do next.", action := none }

/-- The dictionary produced by `state_to_dict` / consumed by
`dict_to_state` in `agent_state.py`: each dataclass field may be present
or absent; `BookingState(**d)` substitutes the dataclass default for an
absent key. -/
structure StateDict where
  step : Option String := none
  email : Option (Option String) := none
  phone : Option (Option String) := none
  title : Option String := none
deriving Repr, DecidableEq

/-- Function `state_to_dict` of `agent_state.py` (`asdict` emits every field). -/
def state_to_dict (st : BookingState) : StateDict :=
  { step := some st.step, email := some st.email, phone := some st.phone,
    title := some st.title }

/-- Function `dict_to_state` of `agent_state.py`: `BookingState(**(d or {}))`. -/
def dict_to_state (d : StateDict) : BookingState :=
  { step := d.step.getD "ask_email", email := d.email.getD none,
    phone := d.phone.getD none, title := d.title.getD "Scheduled Meeting" }

end Agent

/-- A parsed Python `datetime` value: calendar fields plus an optional
fixed UTC offset in seconds (`tz = none` models a naive datetime,
`tzinfo=None`). -/
structure PyDateTime where
  year : Nat
  month : Nat
  day : Nat
  hour : Nat := 0
  minute : Nat := 0
  second : Nat := 0
  microsecond : Nat := 0
  tz : Option Int := none
deriving Repr, DecidableEq

/-- Read exactly `n` decimal digits from the front of `l`, returning the
value and the remainder. -/
def takeDigits (n : Nat) (l : List Char) : Option (Nat × List Char) :=
  let pre := l.take n
  if pre.length = n then
    if pre.all Char.isDigit then
      some (pre.foldl (fun a c => a * 10 + (c.toNat - '0'.toNat)) 0, l.drop n)
    else none
  else none

/-- Consume one expected character. -/
def expectChar (c : Char) : List Char → Option (List Char)
  | [] => none
  | x :: rest => if x = c then some rest else none

/-- Gregorian leap-year rule, as used by Python `datetime`. -/
def isLeapYear (y : Nat) : Bool :=
  (y % 4 == 0 && y % 100 != 0) || y % 400 == 0

/-- Days in a month, as validated by the Python `datetime` constructor. -/
def daysInMonth (y m : Nat) : Nat :=
  if m = 2 then (if isLeapYear y then 29 else 28)
  else if m ∈ [4, 6, 9, 11] then 30 else 31

/-- Parse the fractional-second part `.d{1,6}` into microseconds
(digits are scaled to a 6-digit fraction). -/
def parseFraction (l : List Char) : Option (Nat × List Char) :=
  match l with
  | '.' :: rest =>
    let ds := rest.takeWhile Char.isDigit
    if ds.length = 0 ∨ 6 < ds.length then none
    else
      some ((ds.foldl (fun a c => a * 10 + (c.toNat - '0'.toNat)) 0) * 10 ^ (6 - ds.length),
            rest.drop ds.length)
  | _ => none

/-- Parse a numeric UTC offset `±HH:MM[:SS]`, returning the signed offset
in seconds.  The Python `timezone` constructor requires the offset to be
strictly smaller than one day. -/
def parseOffset (l : List Char) : Option (Int × List Char) :=
  match l with
  | c :: rest =>
    if c = '+' ∨ c = '-' then
      match takeDigits 2 rest with
      | none => none
      | some (oh, r1) =>
        match expectChar ':' r1 with
        | none => none
        | some r2 =>
          match takeDigits 2 r2 with
          | none => none
          | some (om, r3) =>
            let seconds :=
              match r3 with
              | ':' :: r3' =>
                match takeDigits 2 r3' with
                | none => none
                | some (os, r4) => some (oh * 3600 + om * 60 + os, r4)
              | _ => some (oh * 3600 + om * 60, r3)
            match seconds with
            | none => none
            | some (total, r4) =>
              if om ≤ 59 ∧ total < 86400 then
                some (if c = '-' then -(total : Int) else (total : Int), r4)
              else none
    else none
  | [] => none

/-- Parse the time-of-day part `HH[:MM[:SS[.ffffff]]]`. -/
def parseTimePart (l : List Char) : Option (Nat × Nat × Nat × Nat × List Char) :=
  match takeDigits 2 l with
  | none => none
  | some (hh, r1) =>
    match r1 with
    | ':' :: r1' =>
      match takeDigits 2 r1' with
      | none => none
      | some (mm, r2) =>
        match r2 with
        | ':' :: r2' =>
          match takeDigits 2 r2' with
          | none => none
          | some (ss, r3) =>
            match parseFraction r3 with
            | some (us, r4) => some (hh, mm, ss, us, r4)
            | none => some (hh, mm, ss, 0, r3)
        | _ => some (hh, mm, 0, 0, r2)
    | _ => some (hh, 0, 0, 0, r1)

/-- Modelled from the Python stdlib contract of `datetime.fromisoformat`
(the function called by `_parse_iso_datetime` in `chat.py`; the stdlib is
not part of this repository): `YYYY-MM-DD` optionally followed by a
single separator character, a time `HH[:MM[:SS[.ffffff]]]`, and an
optional numeric UTC offset `±HH:MM[:SS]`.  Field ranges are validated
as by the `datetime` constructor.  Crucially, a string **without** an
offset parses successfully as a naive datetime (`tz = none`). -/
def fromisoformat (s : String) : Option PyDateTime :=
  match takeDigits 4 s.toList with
  | none => none
  | some (y, r1) =>
    match expectChar '-' r1 with
    | none => none
    | some r2 =>
      match takeDigits 2 r2 with
      | none => none
      | some (m, r3) =>
        match expectChar '-' r3 with
        | none => none
        | some r4 =>
          match takeDigits 2 r4 with
          | none => none
          | some (d, r5) =>
            if 1 ≤ y ∧ y ≤ 9999 ∧ 1 ≤ m ∧ m ≤ 12 ∧ 1 ≤ d ∧ d ≤ daysInMonth y m then
              match r5 with
              | [] => some { year := y, month := m, day := d }
              | _ :: r6 =>
                match parseTimePart r6 with
                | none => none
                | some (hh, mm, ss, us, r7) =>
                  if hh ≤ 23 ∧ mm ≤ 59 ∧ ss ≤ 59 then
                    match r7 with
                    | [] => some { year := y, month := m, day := d, hour := hh,
                                   minute := mm, second := ss, microsecond := us }
                    | _ =>
                      match parseOffset r7 with
                      | some (off, []) =>
                        some { year := y, month := m, day := d, hour := hh,
                               minute := mm, second := ss, microsecond := us,
                               tz := some off }
                      | _ => none
                  else none
            else none

/-- Function `_parse_iso_datetime` of `chat.py`: reject empty input, strip, turn a
trailing `Z` into `+00:00`, then `datetime.fromisoformat`; any parse
failure yields `None`. -/
def parse_iso_datetime (s : String) : Option PyDateTime :=
  if s.isEmpty then none
  else
    let s2 := pystrip s
    let s3 := if s2.toList.getLast? = some 'Z'
      then String.mk (s2.toList.dropLast ++ ['+', '0', '0', ':', '0', '0'])
      else s2
    fromisoformat s3

namespace Chat

/-- Constant `TZ_NAME = os.getenv("TZ_NAME", "America/Los_Angeles")` in `chat.py`
(default environment configuration). -/
def TZ_NAME : String := "America/Los_Angeles"

/-- Constant `DEFAULT_TITLE = os.getenv("DEFAULT_TITLE", "Scheduled Meeting")` in
`chat.py` (default environment configuration). -/
def DEFAULT_TITLE : String := "Scheduled Meeting"

/-- Dataclass `BookingState` of `chat.py`
(`ask_email_phone -> confirm_contact -> ask_time -> ask_title ->
confirm_all -> done`). -/
structure BookingState where
  step : String := "ask_email_phone"
  email : Option String := none
  phone : Option String := none
  start_iso : Option String := none
  title : Option String := none
deriving Repr, DecidableEq

/-- The `extracted` object of the planner JSON schema in `chat.py`. -/
structure Extracted where
  email : Option String := none
  email_ok : Bool := false
  phone : Option String := none
  phone_ok : Bool := false
  start_iso : Option String := none
  start_ok : Bool := false
  title : Option String := none
  confirm : Option String := none
deriving Repr, DecidableEq

/-- The `notes` object of the planner JSON schema in `chat.py`. -/
structure Notes where
  email_reason : Option String := none
  phone_reason : Option String := none
  time_reason : Option String := none
deriving Repr, DecidableEq

/-- The full planner result `{"extracted": ..., "notes": ...}`. -/
structure Plan where
  extracted : Extracted := {}
  notes : Notes := {}
deriving Repr, DecidableEq

/-- The `safe fallback` dictionary of `llm_extract_and_validate` in
`chat.py`: every field invalid/absent, every note `"parse_error"`. -/
def fallback_plan : Plan :=
  { extracted := { email := none, email_ok := false, phone := none, phone_ok := false,
                   start_iso := none, start_ok := false, title := none, confirm := none },
    notes := { email_reason := some "parse_error", phone_reason := some "parse_error",
               time_reason := some "parse_error" } }

/-- Function `llm_extract_and_validate` of `chat.py`, shallowly embedded over the
outcome of the underlying call.  `call_result` is the outcome of
`client.responses.create` (`Except.error` models a raised exception such
as a timeout; `Except.ok` carries `r.output_text`); `json_parse` models
`json.loads` plus schema decoding (`none` = it raises).  The source's
`try`/`except` wraps **only** the `json.loads` step: the network call
itself stands before the `try` block. -/
def llm_extract_and_validate (call_result : Except String String)
    (json_parse : String → Option Plan) : Except String Plan :=
  match call_result with
  | Except.error e => Except.error e
  | Except.ok txt =>
    match json_parse txt with
    | some p => Except.ok p
    | none => Except.ok fallback_plan

/-- Function `_is_yes` of `chat.py`: the whole stripped, lowercased utterance must
be one of the affirmative tokens. -/
def is_yes (text : String) : Bool :=
  decide (pylower (pystrip text) ∈ ["yes", "y", "yeah", "yep", "confirm", "ok", "okay", "sure"])

/-- Function `_is_no` of `chat.py`: the whole stripped, lowercased utterance must
be one of the negative tokens. -/
def is_no (text : String) : Bool :=
  decide (pylower (pystrip text) ∈ ["no", "n", "nope", "cancel", "restart"])

/-- The `confirm` resolution of `chat_stream` (`chat.py` lines 279-284):
`confirm = ex.get("confirm")`, then an explicit user yes/no wins. -/
def resolve_confirm (user_text : String) (ex_confirm : Option String) : Option String :=
  if is_yes user_text then some "yes"
  else if is_no user_text then some "no"
  else ex_confirm

/-- Function `_contact_summary` of `chat.py`. -/
def contact_summary (st : BookingState) : String :=
  "Email: " ++ pyOr st.email "(missing)" ++ "\nPhone: " ++ pyOr st.phone "(missing)"

/-- Function `_final_summary` of `chat.py`. -/
def final_summary (st : BookingState) : String :=
  "Email: " ++ optStr st.email ++ "\nPhone: " ++ optStr st.phone
    ++ "\nStart: " ++ optStr st.start_iso ++ " (" ++ TZ_NAME ++ ")"
    ++ "\nTitle: " ++ pyOr st.title DEFAULT_TITLE ++ "\n"

/-- The step machine of `chat_stream` (`chat.py` lines 286-361): given
the loaded state, the resolved `confirm`, the raw utterance, and the
planner output, produce the state that `_save_state` persists and the
`planned_text` handed to the reply generator. -/
def chat_step (st : BookingState) (confirm : Option String) (user_text : String)
    (ex : Extracted) (notes : Notes) : BookingState × String :=
  if st.step = "ask_email_phone" then
    let st := if ex.email_ok && truthy ex.email
      then { st with email := some (pylower (pystrip (ex.email.getD ""))) } else st
    let st := if ex.phone_ok && truthy ex.phone
      then { st with phone := some (pyslice (pystrip (ex.phone.getD "")) 40) } else st
    if !truthy st.email || !truthy st.phone then
      let reason_email := pyOr notes.email_reason ""
      let reason_phone := pyOr notes.phone_reason ""
      let base := "Please provide BOTH a valid email and a valid phone number in one message.\nExample: john@example.com, +1 415 555 2671\n"
      let planned := if !reason_email.isEmpty || !reason_phone.isEmpty
        then base ++ "\n(Details: email=" ++ pyOrS reason_email "missing"
               ++ ", phone=" ++ pyOrS reason_phone "missing" ++ ")"
        else base
      (st, planned)
    else
      let st := { st with step := "confirm_contact" }
      (st, "Thanks! Please confirm these details:\n" ++ contact_summary st
             ++ "\n\nReply \x27yes\x27 to confirm or \x27no\x27 to re-enter.")
  else if st.step = "confirm_contact" then
    if confirm = some "no" then
      ({ step := "ask_email_phone" },
       "No problem. Please tell me your email and phone number again.")
    else if confirm = some "yes" then
      ({ st with step := "ask_time" },
       "Great. What date and time would you like to schedule the meeting?")
    else
      (st, "Please reply \x27yes\x27 to confirm or \x27no\x27 to re-enter your email and phone.")
  else if st.step = "ask_time" then
    if ex.start_ok && truthy ex.start_iso then
      match parse_iso_datetime (ex.start_iso.getD "") with
      | none =>
        (st, "Sorry — I couldn’t parse that time. Please try again (e.g., \x27Feb 16 2pm\x27).")
      | some _ =>
        ({ st with start_iso := ex.start_iso, step := "ask_title" },
         "Optional: what’s the meeting title? You can say \x27skip\x27.")
    else
      (st, "Sorry, I couldn’t understand the date/time.\nTry: \x27Feb 16 2pm\x27 or \x27next Monday 3pm\x27.\n(Details: "
             ++ pyOr notes.time_reason "missing/ambiguous" ++ ")")
  else if st.step = "ask_title" then
    let t := pystrip (pyOr ex.title user_text)
    let title := if pylower t ∈ ["skip", "no", "none"] then DEFAULT_TITLE
      else if t.isEmpty then DEFAULT_TITLE else pyslice t 120
    let st := { st with title := some title, step := "confirm_all" }
    (st, "Please confirm the meeting details:\n" ++ final_summary st
           ++ "\nCreate the calendar event now? (yes/no)")
  else if st.step = "confirm_all" then
    if confirm = some "no" then
      ({ st with step := "ask_time", start_iso := none },
       "Okay. Let’s pick a new time. What date and time would you like?")
    else if confirm = some "yes" then
      (st, "Got it — creating your calendar event now…")
    else
      (st, "Please reply \x27yes\x27 to create the event or \x27no\x27 to change the time.")
  else if st.step = "done" then
    (st, "Your event is already created. Click Clear to start a new booking.")
  else
    (st, "")

/-- The dictionary returned by `create_google_calendar_event`, restricted
to the keys `sse` reads (`htmlLink`, `hangoutLink`; `dict.get` yields
`None` for an absent key). -/
structure Created where
  htmlLink : Option String := none
  hangoutLink : Option String := none
deriving Repr, DecidableEq

/-- Part B of `sse` in `chat_stream` (`chat.py` lines 371-408): after the
reply stream, if the reloaded state is still at `confirm_all` and the
user confirmed and all fields are truthy, attempt the external booking
call (its outcome is the `commit` parameter; `Except.error` models a
raised exception) and persist `step = done` only on success.  Returns
the state that ends up persisted and the extra streamed text. -/
def commit_phase (st2 : BookingState) (confirm : Option String)
    (commit : Except String Created) : BookingState × String :=
  if st2.step = "confirm_all" ∧ confirm = some "yes"
      ∧ truthy st2.start_iso = true ∧ truthy st2.email = true ∧ truthy st2.phone = true then
    match parse_iso_datetime (st2.start_iso.getD "") with
    | none => (st2, "\n\n⚠️ Internal error: invalid start_iso format.")
    | some _ =>
      match commit with
      | Except.error e => (st2, "\n\n⚠️ Failed to create event: " ++ e)
      | Except.ok created =>
        let extra := "\n\n✅ Event created!\n"
          ++ (match created.hangoutLink with
              | some m => if m.isEmpty then "" else "Meet link: " ++ m ++ "\n"
              | none => "")
          ++ (match created.htmlLink with
              | some h => if h.isEmpty then "" else "Calendar link: " ++ h ++ "\n"
              | none => "")
          ++ ("Invite email sent to: " ++ optStr st2.email)
        ({ st2 with step := "done" }, extra)
  else (st2, "")

/-- One full turn of `chat_stream`: resolve `confirm`, run the step
machine (whose result `_save_state` persists), then run the post-stream
commit phase on the reloaded state.  Returns the finally persisted
state, the planned reply text, and the extra commit text. -/
def chat_turn (st : BookingState) (user_text : String) (ex : Extracted)
    (notes : Notes) (commit : Except String Created) :
    BookingState × String × String :=
  let confirm := resolve_confirm user_text ex.confirm
  let p := chat_step st confirm user_text ex notes
  let q := commit_phase p.1 confirm commit
  (q.1, p.2, q.2)

end Chat

namespace Voice

/-- One `{role, content}` entry of the voice transcript. -/
structure Msg where
  role : String
  content : String
deriving Repr, DecidableEq

/-- The append-then-truncate idiom of `voice_chat_stream` in `voice.py`:
`history.append(m); history[:] = history[-20:]` — Python `l[-20:]` keeps
the last twenty entries (the whole list when shorter). -/
def push_truncated (history : List Msg) (m : Msg) : List Msg :=
  let h2 := history ++ [m]
  h2.drop (h2.length - 20)

end Voice

/-- The shape the spec prescribes for a stored phone number: an optional
single leading `+` followed exclusively by digits, at least seven of
them.  Stated from the spec's words, to be compared with what the source
functions actually store. -/
def phone_shape (l : List Char) : Bool :=
  let l2 := if l.head? = some '+' then l.tail else l
  l2.all Char.isDigit && decide (7 ≤ l2.length)

/-! ## Claim theorems -/

/-- C10: converting a `BookingState` to a dictionary and back yields an
equal state, and `dict_to_state` applied to an empty/absent dictionary
yields the default initial state with step `ask_email`. -/
theorem c10_state_dict_round_trip (s : Agent.BookingState) :
    Agent.dict_to_state (Agent.state_to_dict s) = s
    ∧ Agent.dict_to_state {} = { step := "ask_email", email := none, phone := none,
                                 title := "Scheduled Meeting" } := by
  constructor
  · cases s; rfl
  · rfl

/-- C9: the voice history after an append-and-truncate holds at most the
20 most recent entries, is a suffix of the appended transcript (so the
oldest entries are dropped first and the relative order of the retained
entries is preserved), and is the full appended transcript whenever the
bound is not yet exceeded. -/
theorem c9_history_window (h : List Voice.Msg) (m : Voice.Msg) :
    (Voice.push_truncated h m).length = min (h.length + 1) 20
    ∧ List.IsSuffix (Voice.push_truncated h m) (h ++ [m])
    ∧ (h.length < 20 → Voice.push_truncated h m = h ++ [m]) := by
  refine ⟨?_, List.drop_suffix _ _, ?_⟩
  · simp [Voice.push_truncated]
    omega
  · intro hlt
    have hz : h.length - 19 = 0 := by omega
    simp [Voice.push_truncated, hz]

/-- C9 witness: appending to an empty history keeps the single entry. -/
theorem c9_witness :
    Voice.push_truncated [] { role := "user", content := "hi" }
      = [{ role := "user", content := "hi" }] :=
  (c9_history_window [] { role := "user", content := "hi" }).2.2 (by decide)

/-- C8: once `step = done` the session is terminal in both variants: the
agent machine returns the fixed "already completed" reply with no action
and an unchanged state, and a full chat turn (step machine plus commit
phase) leaves the state unchanged and plans the fixed reply. -/
theorem c8_terminal_done (ast : Agent.BookingState) (u : String)
    (ha : ast.step = "done") (cst : Chat.BookingState) (v : String)
    (ex : Chat.Extracted) (n : Chat.Notes) (commit : Except String Chat.Created)
    (hc : cst.step = "done") :
    Agent.handle_user_message ast u
      = { state := ast,
          reply := "This session is already completed. Clear to start a new one.",
          action := none }
    ∧ (Chat.chat_turn cst v ex n commit).1 = cst
    ∧ (Chat.chat_turn cst v ex n commit).2.1
      = "Your event is already created. Click Clear to start a new booking." := by
  refine ⟨?_, ?_, ?_⟩ <;>
    simp [Agent.handle_user_message, Chat.chat_turn, Chat.chat_step, Chat.commit_phase, ha, hc]

/-- C8 witness: a concrete utterance at `done` in both variants. -/
theorem c8_witness :
    Agent.handle_user_message { step := "done", email := some "a@b.com" } "hello"
      = { state := { step := "done", email := some "a@b.com" },
          reply := "This session is already completed. Clear to start a new one.",
          action := none }
    ∧ (Chat.chat_turn { step := "done", email := some "a@b.com" } "hello" {} {}
         (Except.ok {})).1
      = { step := "done", email := some "a@b.com" }
    ∧ (Chat.chat_turn { step := "done", email := some "a@b.com" } "hello" {} {}
         (Except.ok {})).2.1
      = "Your event is already created. Click Clear to start a new booking." :=
  c8_terminal_done { step := "done", email := some "a@b.com" } "hello" rfl
    { step := "done", email := some "a@b.com" } "hello" {} {} (Except.ok {}) rfl

/-- C5 counterexample: the extraction adapter does **not** catch a
failure of the underlying call itself — `client.responses.create` stands
outside the `try` block, so a timeout propagates to the caller instead of
degrading to the all-invalid fallback result. -/
theorem c5_counterexample :
    Chat.llm_extract_and_validate (Except.error "timeout") (fun _ => none)
      = Except.error "timeout" := rfl

/-- C5 amended: the adapter's `try`/`except` protects only the decoding
of the model's output text: unparseable output degrades to the
all-invalid `fallback_plan` (whose fields are all invalid/absent with
the generic reason `parse_error`), parseable output is returned as-is,
and an error raised by the underlying call itself propagates. -/
theorem c5_adapter_fallback (jp : String → Option Chat.Plan) (txt e : String) :
    (jp txt = none →
      Chat.llm_extract_and_validate (Except.ok txt) jp = Except.ok Chat.fallback_plan)
    ∧ (∀ p, jp txt = some p →
        Chat.llm_extract_and_validate (Except.ok txt) jp = Except.ok p)
    ∧ Chat.llm_extract_and_validate (Except.error e) jp = Except.error e
    ∧ (Chat.fallback_plan.extracted.email = none ∧ Chat.fallback_plan.extracted.email_ok = false
       ∧ Chat.fallback_plan.extracted.phone = none ∧ Chat.fallback_plan.extracted.phone_ok = false
       ∧ Chat.fallback_plan.extracted.start_iso = none ∧ Chat.fallback_plan.extracted.start_ok = false
       ∧ Chat.fallback_plan.extracted.title = none ∧ Chat.fallback_plan.extracted.confirm = none
       ∧ Chat.fallback_plan.notes.email_reason = some "parse_error"
       ∧ Chat.fallback_plan.notes.phone_reason = some "parse_error"
       ∧ Chat.fallback_plan.notes.time_reason = some "parse_error") := by
  refine ⟨?_, ?_, rfl, by decide⟩
  · intro h; simp [Chat.llm_extract_and_validate, h]
  · intro p h; simp [Chat.llm_extract_and_validate, h]

/-- C5 witness: unparseable output text degrades to the fallback plan. -/
theorem c5_witness :
    Chat.llm_extract_and_validate (Except.ok "garbage") (fun _ => none)
      = Except.ok Chat.fallback_plan :=
  (c5_adapter_fallback (fun _ => none) "garbage" "e").1 rfl

/-- C2 counterexample: `"no thanks"` is not an exact negative token, so
the explicit-token override does not fire; with extractor-inferred
confirm = `yes` the resolved intent is `yes`, and at `confirm_contact`
the engine advances to `ask_time` keeping the contact fields — it does
not return to the collect step with cleared fields as the claim states. -/
theorem c2_counterexample :
    Chat.resolve_confirm "no thanks" (some "yes") = some "yes"
    ∧ (Chat.chat_turn
        { step := "confirm_contact", email := some "a@b.com", phone := some "+14155552671" }
        "no thanks" { confirm := some "yes" } {} (Except.error "unreached")).1
      = { step := "ask_time", email := some "a@b.com", phone := some "+14155552671" } := by
  decide

/-- C3 counterexample: a turn can change a held field even though the
extraction marked it invalid — a user reject at `confirm_contact` resets
the state, clearing the previously stored email although `email_ok` is
false. -/
theorem c3_counterexample :
    ((Chat.chat_turn
        { step := "confirm_contact", email := some "a@b.com", phone := some "+14155552671" }
        "no" { email_ok := false } {} (Except.error "unreached")).1.email = none)
    ∧ ((Chat.chat_turn
        { step := "confirm_contact", email := some "a@b.com", phone := some "+14155552671" }
        "no" { email_ok := false } {} (Except.error "unreached")).1.email ≠ some "a@b.com") := by
  decide

/-- C4 counterexample: at `ask_email_phone` the chat engine stores the
extractor's email on the strength of `email_ok` alone — the stored value
`"bad"` fails the engine's own deterministic email predicate. -/
theorem c4_counterexample :
    ((Chat.chat_turn { step := "ask_email_phone" } "my email is bad"
        { email := some "bad", email_ok := true,
          phone := some "+14155552671", phone_ok := true }
        {} (Except.error "unreached")).1.email = some "bad")
    ∧ Agent.is_valid_email "bad" = false := by
  decide

/-- C6 counterexample: a bare local date-time without timezone offset
parses successfully (as a naive datetime, `tz = none`), so at `ask_time`
the engine stores it and advances to `ask_title` instead of rejecting it
with the state unchanged. -/
theorem c6_counterexample :
    parse_iso_datetime "2026-02-16T14:00:00"
      = some { year := 2026, month := 2, day := 16, hour := 14 }
    ∧ (Chat.chat_turn
         { step := "ask_time", email := some "a@b.com", phone := some "+14155552671" }
         "Feb 16 at 2pm" { start_iso := some "2026-02-16T14:00:00", start_ok := true } {}
         (Except.error "unreached")).1
      = { step := "ask_title", email := some "a@b.com", phone := some "+14155552671",
          start_iso := some "2026-02-16T14:00:00" } := by
  decide

/-! ## Branch characterizations of the chat step machine -/

/-- At `confirm_contact` the step machine only dispatches on `confirm`. -/
theorem chat_step_cc (st : Chat.BookingState) (confirm : Option String) (u : String)
    (ex : Chat.Extracted) (n : Chat.Notes) (h : st.step = "confirm_contact") :
    Chat.chat_step st confirm u ex n
      = if confirm = some "no" then
          ({ step := "ask_email_phone" },
           "No problem. Please tell me your email and phone number again.")
        else if confirm = some "yes" then
          ({ st with step := "ask_time" },
           "Great. What date and time would you like to schedule the meeting?")
        else
          (st, "Please reply \x27yes\x27 to confirm or \x27no\x27 to re-enter your email and phone.") := by
  unfold Chat.chat_step
  rw [if_neg (show ¬(st.step = "ask_email_phone") by rw [h]; decide), if_pos h]

/-- At `ask_time` the step machine stores the extracted time only when
the extractor validated it and the engine can parse it. -/
theorem chat_step_at (st : Chat.BookingState) (confirm : Option String) (u : String)
    (ex : Chat.Extracted) (n : Chat.Notes) (h : st.step = "ask_time") :
    Chat.chat_step st confirm u ex n
      = if (ex.start_ok && truthy ex.start_iso) = true then
          match parse_iso_datetime (ex.start_iso.getD "") with
          | none =>
            (st, "Sorry — I couldn’t parse that time. Please try again (e.g., \x27Feb 16 2pm\x27).")
          | some _ =>
            ({ st with start_iso := ex.start_iso, step := "ask_title" },
             "Optional: what’s the meeting title? You can say \x27skip\x27.")
        else
          (st, "Sorry, I couldn’t understand the date/time.\nTry: \x27Feb 16 2pm\x27 or \x27next Monday 3pm\x27.\n(Details: "
                 ++ pyOr n.time_reason "missing/ambiguous" ++ ")") := by
  unfold Chat.chat_step
  rw [if_neg (show ¬(st.step = "ask_email_phone") by rw [h]; decide),
      if_neg (show ¬(st.step = "confirm_contact") by rw [h]; decide), if_pos h]

/-- At `ask_title` every utterance advances to `confirm_all`; only the
title and step fields change. -/
theorem chat_step_atitle (st : Chat.BookingState) (confirm : Option String) (u : String)
    (ex : Chat.Extracted) (n : Chat.Notes) (h : st.step = "ask_title") :
    Chat.chat_step st confirm u ex n
      = (let t := pystrip (pyOr ex.title u)
         let title := if pylower t ∈ ["skip", "no", "none"] then Chat.DEFAULT_TITLE
           else if t.isEmpty then Chat.DEFAULT_TITLE else pyslice t 120
         let st' : Chat.BookingState := { st with title := some title, step := "confirm_all" }
         (st', "Please confirm the meeting details:\n" ++ Chat.final_summary st'
                 ++ "\nCreate the calendar event now? (yes/no)")) := by
  unfold Chat.chat_step
  rw [if_neg (show ¬(st.step = "ask_email_phone") by rw [h]; decide),
      if_neg (show ¬(st.step = "confirm_contact") by rw [h]; decide),
      if_neg (show ¬(st.step = "ask_time") by rw [h]; decide), if_pos h]

/-- At `confirm_all` the step machine only dispatches on `confirm`; on
`yes` the state is left untouched (the commit phase decides `done`). -/
theorem chat_step_call (st : Chat.BookingState) (confirm : Option String) (u : String)
    (ex : Chat.Extracted) (n : Chat.Notes) (h : st.step = "confirm_all") :
    Chat.chat_step st confirm u ex n
      = if confirm = some "no" then
          ({ st with step := "ask_time", start_iso := none },
           "Okay. Let’s pick a new time. What date and time would you like?")
        else if confirm = some "yes" then
          (st, "Got it — creating your calendar event now…")
        else
          (st, "Please reply \x27yes\x27 to create the event or \x27no\x27 to change the time.") := by
  unfold Chat.chat_step
  rw [if_neg (show ¬(st.step = "ask_email_phone") by rw [h]; decide),
      if_neg (show ¬(st.step = "confirm_contact") by rw [h]; decide),
      if_neg (show ¬(st.step = "ask_time") by rw [h]; decide),
      if_neg (show ¬(st.step = "ask_title") by rw [h]; decide), if_pos h]

/-- At `done` the step machine replies with the fixed text. -/
theorem chat_step_done (st : Chat.BookingState) (confirm : Option String) (u : String)
    (ex : Chat.Extracted) (n : Chat.Notes) (h : st.step = "done") :
    Chat.chat_step st confirm u ex n
      = (st, "Your event is already created. Click Clear to start a new booking.") := by
  unfold Chat.chat_step
  rw [if_neg (show ¬(st.step = "ask_email_phone") by rw [h]; decide),
      if_neg (show ¬(st.step = "confirm_contact") by rw [h]; decide),
      if_neg (show ¬(st.step = "ask_time") by rw [h]; decide),
      if_neg (show ¬(st.step = "ask_title") by rw [h]; decide),
      if_neg (show ¬(st.step = "confirm_all") by rw [h]; decide), if_pos h]

/-- On an unknown step the step machine is the identity with an empty
planned text. -/
theorem chat_step_other (st : Chat.BookingState) (confirm : Option String) (u : String)
    (ex : Chat.Extracted) (n : Chat.Notes)
    (h1 : st.step ≠ "ask_email_phone") (h2 : st.step ≠ "confirm_contact")
    (h3 : st.step ≠ "ask_time") (h4 : st.step ≠ "ask_title")
    (h5 : st.step ≠ "confirm_all") (h6 : st.step ≠ "done") :
    Chat.chat_step st confirm u ex n = (st, "") := by
  unfold Chat.chat_step
  rw [if_neg h1, if_neg h2, if_neg h3, if_neg h4, if_neg h5, if_neg h6]

/-- At `ask_email_phone`, the stored email after the turn. -/
theorem chat_step_aep_email (st : Chat.BookingState) (confirm : Option String) (u : String)
    (ex : Chat.Extracted) (n : Chat.Notes) (h : st.step = "ask_email_phone") :
    (Chat.chat_step st confirm u ex n).1.email
      = if (ex.email_ok && truthy ex.email) = true
        then some (pylower (pystrip (ex.email.getD ""))) else st.email := by
  unfold Chat.chat_step
  rw [if_pos h]
  by_cases he : (ex.email_ok && truthy ex.email) = true <;>
    by_cases hp : (ex.phone_ok && truthy ex.phone) = true <;>
      simp only [he, hp, if_true, if_false, Bool.false_eq_true, ite_true, ite_false] <;>
        split <;> rfl

/-- At `ask_email_phone`, the stored phone after the turn. -/
theorem chat_step_aep_phone (st : Chat.BookingState) (confirm : Option String) (u : String)
    (ex : Chat.Extracted) (n : Chat.Notes) (h : st.step = "ask_email_phone") :
    (Chat.chat_step st confirm u ex n).1.phone
      = if (ex.phone_ok && truthy ex.phone) = true
        then some (pyslice (pystrip (ex.phone.getD "")) 40) else st.phone := by
  unfold Chat.chat_step
  rw [if_pos h]
  by_cases he : (ex.email_ok && truthy ex.email) = true <;>
    by_cases hp : (ex.phone_ok && truthy ex.phone) = true <;>
      simp only [he, hp, if_true, if_false, Bool.false_eq_true, ite_true, ite_false] <;>
        split <;> rfl

/-- At `ask_email_phone`, `start_iso` is never touched. -/
theorem chat_step_aep_start (st : Chat.BookingState) (confirm : Option String) (u : String)
    (ex : Chat.Extracted) (n : Chat.Notes) (h : st.step = "ask_email_phone") :
    (Chat.chat_step st confirm u ex n).1.start_iso = st.start_iso := by
  unfold Chat.chat_step
  rw [if_pos h]
  by_cases he : (ex.email_ok && truthy ex.email) = true <;>
    by_cases hp : (ex.phone_ok && truthy ex.phone) = true <;>
      simp only [he, hp, if_true, if_false, Bool.false_eq_true, ite_true, ite_false] <;>
        split <;> rfl

/-- Every character surviving `normalize_phone` is a digit or `+`. -/
theorem normalize_phone_chars (s : String) :
    ∀ c ∈ (Agent.normalize_phone s).toList, (c.isDigit || c == '+') = true := by
  intro c hc
  have hc' : c ∈ List.filter (fun c => c.isDigit || c == '+') (stripList s.toList) := hc
  exact (List.mem_filter.mp hc').2

/-- A digit-or-plus string accepted by `PHONE_RE` consists of an
optional leading `+` followed by at least seven digits. -/
theorem phone_shape_of_re (l : List Char)
    (hmem : ∀ c ∈ l, (c.isDigit || c == '+') = true)
    (h : Agent.phone_re_match l = true) : phone_shape l = true := by
  have digit_of : ∀ c ∈ l, Agent.phone_body_char c = true → c.isDigit = true := by
    intro c hc hb
    have h2 : c.isDigit = true ∨ c = '+' := by
      have h3 := hmem c hc
      simp only [Bool.or_eq_true, beq_iff_eq] at h3
      exact h3
    rcases h2 with hd | hp
    · exact hd
    · subst hp
      exact absurd hb (by decide)
  unfold Agent.phone_re_match at h
  unfold phone_shape
  by_cases hh : l.head? = some '+'
  · rw [if_pos hh] at h ⊢
    cases l with
    | nil => simp at hh
    | cons c0 r0 =>
      cases r0 with
      | nil => simp at h
      | cons c1 r1 =>
        simp only [List.tail_cons] at h ⊢
        simp only [Bool.and_eq_true, decide_eq_true_eq] at h
        obtain ⟨⟨hd1, hlen⟩, hall⟩ := h
        rw [List.all_eq_true] at hall
        simp only [List.all_cons, Bool.and_eq_true, List.length_cons, decide_eq_true_eq]
        refine ⟨⟨hd1, ?_⟩, by omega⟩
        rw [List.all_eq_true]
        intro c hc
        exact digit_of c (by simp [List.mem_cons]; tauto) (hall c hc)
  · rw [if_neg hh] at h ⊢
    cases l with
    | nil => simp at h
    | cons c0 r0 =>
      simp only [Bool.and_eq_true, decide_eq_true_eq] at h
      obtain ⟨⟨hd0, hlen⟩, hall⟩ := h
      rw [List.all_eq_true] at hall
      simp only [List.all_cons, Bool.and_eq_true, List.length_cons, decide_eq_true_eq]
      refine ⟨⟨hd0, ?_⟩, by omega⟩
      rw [List.all_eq_true]
      intro c hc
      exact digit_of c (by simp [List.mem_cons]; tauto) (hall c hc)

/-- C7: email normalization trims and lowercases (the concrete round
trip stores `john.doe@example.com`), phone normalization keeps only
digits and `+` (the concrete round trip stores `+14155552671`), and
every phone value accepted by the engine's validity check normalizes to
an optional single leading `+` followed by at least seven digits. -/
theorem c7_normalization :
    (Agent.handle_user_message { step := "ask_email" } " John.Doe@Example.COM ").state
      = { step := "ask_phone", email := some "john.doe@example.com" }
    ∧ (Agent.handle_user_message
         { step := "ask_phone", email := some "john.doe@example.com" } "+1 (415) 555-2671").state
      = { step := "confirm", email := some "john.doe@example.com",
          phone := some "+14155552671" }
    ∧ (∀ s, Agent.is_valid_phone s = true →
        phone_shape (Agent.normalize_phone s).toList = true) := by
  refine ⟨by decide, by decide, ?_⟩
  intro s h
  exact phone_shape_of_re _ (normalize_phone_chars s) h

/-- C7 witness: the concrete phone input normalizes to `+` plus digits. -/
theorem c7_witness : phone_shape (Agent.normalize_phone "+1 (415) 555-2671").toList = true :=
  c7_normalization.2.2 "+1 (415) 555-2671" (by decide)

/-- The affirmative and negative token sets of `chat.py` are disjoint. -/
theorem is_no_not_is_yes (u : String) (h : Chat.is_no u = true) : Chat.is_yes u = false := by
  rw [Chat.is_no, decide_eq_true_eq] at h
  rw [Chat.is_yes, decide_eq_false_iff_not]
  intro hy
  simp only [List.mem_cons, List.not_mem_nil, or_false] at h
  rcases h with h | h | h | h | h <;> rw [h] at hy <;> exact absurd hy (by decide)

/-- C2 amended: the explicit-token override fires exactly when the whole
stripped, lowercased utterance is one of the fixed tokens; `chat.py`'s
affirmative set is `yes, y, yeah, yep, confirm, ok, okay, sure` (it does
not contain `correct`).  For such exact tokens the resolved confirmation
intent overrides any extractor-inferred value, and an exact negative
token at `confirm_contact` resets the state to `ask_email_phone` with
all fields cleared.  (A longer utterance merely containing a token, such
as `"no thanks"`, does not trigger the override — see the
counterexample.) -/
theorem c2_explicit_token_precedence (u : String) (c : Option String)
    (st : Chat.BookingState) (ex : Chat.Extracted) (n : Chat.Notes)
    (hstep : st.step = "confirm_contact") :
    Chat.is_yes "correct" = false
    ∧ (Chat.is_yes u = true → Chat.resolve_confirm u c = some "yes")
    ∧ (Chat.is_no u = true → Chat.resolve_confirm u c = some "no")
    ∧ (Chat.is_no u = true →
        (Chat.chat_step st (Chat.resolve_confirm u ex.confirm) u ex n).1
          = { step := "ask_email_phone" }) := by
  refine ⟨by decide, ?_, ?_, ?_⟩
  · intro hy
    rw [Chat.resolve_confirm, if_pos hy]
  · intro hn
    rw [Chat.resolve_confirm, if_neg (by rw [is_no_not_is_yes u hn]; decide), if_pos hn]
  · intro hn
    have hres : Chat.resolve_confirm u ex.confirm = some "no" := by
      rw [Chat.resolve_confirm, if_neg (by rw [is_no_not_is_yes u hn]; decide), if_pos hn]
    rw [chat_step_cc st _ u ex n hstep, hres, if_pos rfl]

/-- C2 witness: the exact token `no` at `confirm_contact` clears the
contact fields even though the extractor inferred confirm = yes. -/
theorem c2_witness :
    (Chat.chat_step
        { step := "confirm_contact", email := some "a@b.com", phone := some "+14155552671" }
        (Chat.resolve_confirm "no" (some "yes")) "no" { confirm := some "yes" } {}).1
      = { step := "ask_email_phone" } :=
  (c2_explicit_token_precedence "no" (some "yes")
      { step := "confirm_contact", email := some "a@b.com", phone := some "+14155552671" }
      { confirm := some "yes" } {} rfl).2.2.2 (by decide)

/-- C3 amended: extraction never clobbers a held contact field — at
`ask_email_phone` an email/phone is written if and only if the extractor
marked it valid and produced a non-empty value (otherwise the held value
survives), and no other step writes these fields from extraction; the
single exception forced by the counterexample is a user-initiated reject
at `confirm_contact`, which resets the whole state. -/
theorem c3_field_non_clobbering (st : Chat.BookingState) (confirm : Option String)
    (u : String) (ex : Chat.Extracted) (n : Chat.Notes)
    (hnr : ¬(st.step = "confirm_contact" ∧ confirm = some "no")) :
    ((Chat.chat_step st confirm u ex n).1.email
       = if (ex.email_ok && truthy ex.email) = true ∧ st.step = "ask_email_phone"
         then some (pylower (pystrip (ex.email.getD ""))) else st.email)
    ∧ ((Chat.chat_step st confirm u ex n).1.phone
       = if (ex.phone_ok && truthy ex.phone) = true ∧ st.step = "ask_email_phone"
         then some (pyslice (pystrip (ex.phone.getD "")) 40) else st.phone) := by
  by_cases h1 : st.step = "ask_email_phone"
  · rw [chat_step_aep_email st confirm u ex n h1, chat_step_aep_phone st confirm u ex n h1]
    constructor <;> simp [h1]
  · by_cases h2 : st.step = "confirm_contact"
    · have hno : ¬(confirm = some "no") := fun hc => hnr ⟨h2, hc⟩
      rw [chat_step_cc st confirm u ex n h2, if_neg hno]
      by_cases hys : confirm = some "yes" <;> simp [hys, h1]
    · by_cases h3 : st.step = "ask_time"
      · rw [chat_step_at st confirm u ex n h3]
        by_cases hok : (ex.start_ok && truthy ex.start_iso) = true
        · rw [if_pos hok]
          cases parse_iso_datetime (ex.start_iso.getD "") <;> simp [h1]
        · rw [if_neg hok]
          simp [h1]
      · by_cases h4 : st.step = "ask_title"
        · rw [chat_step_atitle st confirm u ex n h4]
          simp [h1]
        · by_cases h5 : st.step = "confirm_all"
          · rw [chat_step_call st confirm u ex n h5]
            by_cases hno : confirm = some "no" <;> by_cases hys : confirm = some "yes" <;>
              simp [hno, hys, h1]
          · by_cases h6 : st.step = "done"
            · rw [chat_step_done st confirm u ex n h6]
              simp [h1]
            · rw [chat_step_other st confirm u ex n h1 h2 h3 h4 h5 h6]
              simp [h1]

/-- C3 witness: with `email` already held and the extraction marking
email invalid, the stored email is unchanged after the turn. -/
theorem c3_witness :
    (Chat.chat_step
        { step := "ask_email_phone", email := some "old@b.com", phone := some "+17775552671" }
        none "hi" { email := some "ignored", email_ok := false } {}).1.email
      = some "old@b.com" := by
  have h := c3_field_non_clobbering
      { step := "ask_email_phone", email := some "old@b.com", phone := some "+17775552671" }
      none "hi" { email := some "ignored", email_ok := false } {} (by decide)
  rw [h.1]
  decide

/-- C6 amended: at `ask_time` the engine accepts the extracted timestamp
if and only if the extractor marked it valid and non-empty **and**
`_parse_iso_datetime` parses it; the engine itself does not require a
timezone offset (a bare local date-time parses as a naive datetime and
is accepted — see the counterexample); offset discipline is delegated to
the extractor contract.  On a parse failure or an extractor rejection the
state is unchanged. -/
theorem c6_time_acceptance (st : Chat.BookingState) (confirm : Option String) (u : String)
    (ex : Chat.Extracted) (n : Chat.Notes) (hstep : st.step = "ask_time") :
    (∀ dt, (ex.start_ok && truthy ex.start_iso) = true →
        parse_iso_datetime (ex.start_iso.getD "") = some dt →
        Chat.chat_step st confirm u ex n
          = ({ st with start_iso := ex.start_iso, step := "ask_title" },
             "Optional: what’s the meeting title? You can say \x27skip\x27."))
    ∧ ((ex.start_ok && truthy ex.start_iso) = true →
        parse_iso_datetime (ex.start_iso.getD "") = none →
        (Chat.chat_step st confirm u ex n).1 = st)
    ∧ ((ex.start_ok && truthy ex.start_iso) = false →
        (Chat.chat_step st confirm u ex n).1 = st) := by
  rw [chat_step_at st confirm u ex n hstep]
  refine ⟨?_, ?_, ?_⟩
  · intro dt hok hp
    rw [if_pos hok, hp]
  · intro hok hp
    rw [if_pos hok, hp]
  · intro hok
    rw [if_neg (by simp [hok])]

/-- C6 witness: a trailing-`Z` UTC timestamp is accepted at `ask_time`
and stored. -/
theorem c6_witness :
    Chat.chat_step { step := "ask_time" } none "x"
        { start_iso := some "2026-02-16T14:00:00Z", start_ok := true } {}
      = ({ step := "ask_title", start_iso := some "2026-02-16T14:00:00Z" },
         "Optional: what’s the meeting title? You can say \x27skip\x27.") :=
  (c6_time_acceptance { step := "ask_time" } none "x"
      { start_iso := some "2026-02-16T14:00:00Z", start_ok := true } {} rfl).1
    { year := 2026, month := 2, day := 16, hour := 14, tz := some 0 } (by decide) (by decide)

/-- At `ask_email` the agent machine stores the stripped, lowercased
email only when `is_valid_email` accepts the input. -/
theorem handle_ask_email (ast : Agent.BookingState) (u : String) (h : ast.step = "ask_email") :
    Agent.handle_user_message ast u
      = if (!Agent.is_valid_email (pystrip u)) = true then
          { state := ast,
            reply := "Please provide a valid email address (e.g., john.doe@gmail.com).",
            action := none }
        else
          { state :=
              { ast with email := some (pylower (pystrip (pystrip u))), step := "ask_phone" },
            reply := "Thanks! Now please provide your phone number (digits, may include +).",
            action := none } := by
  simp only [Agent.handle_user_message]
  rw [if_pos h]

/-- At `ask_phone` the agent machine stores the normalized phone only
when `is_valid_phone` accepts the input. -/
theorem handle_ask_phone (ast : Agent.BookingState) (u : String) (h : ast.step = "ask_phone") :
    Agent.handle_user_message ast u
      = if (!Agent.is_valid_phone (pystrip u)) = true then
          { state := ast,
            reply := "Please provide a valid phone number (e.g., +14155552671).",
            action := none }
        else
          { state :=
              { ast with phone := some (Agent.normalize_phone (pystrip u)), step := "confirm" },
            reply := Agent.build_confirmation
              { ast with phone := some (Agent.normalize_phone (pystrip u)), step := "confirm" },
            action := none } := by
  simp only [Agent.handle_user_message]
  rw [if_neg (show ¬(ast.step = "ask_email") by rw [h]; decide), if_pos h]

/-- At `confirm` the agent machine dispatches on `parse_yes_no`. -/
theorem handle_confirm (ast : Agent.BookingState) (u : String) (h : ast.step = "confirm") :
    Agent.handle_user_message ast u
      = (match Agent.parse_yes_no (pystrip u) with
         | none =>
           { state := ast,
             reply := "Please reply with **yes** to confirm or **no** to restart.",
             action := none }
         | some false =>
           { state := { step := "ask_email", title := ast.title },
             reply := "No problem — let’s start over.\nWhat’s your email?",
             action := none }
         | some true =>
           { state := { ast with step := "done" },
             reply := "Great — creating your meeting now…",
             action := some Agent.AgentAction.create_meeting }) := by
  simp only [Agent.handle_user_message]
  rw [if_neg (show ¬(ast.step = "ask_email") by rw [h]; decide),
      if_neg (show ¬(ast.step = "ask_phone") by rw [h]; decide), if_pos h]

/-- At `done` the agent machine returns the fixed terminal reply. -/
theorem handle_done (ast : Agent.BookingState) (u : String) (h : ast.step = "done") :
    Agent.handle_user_message ast u
      = { state := ast,
          reply := "This session is already completed. Clear to start a new one.",
          action := none } := by
  simp only [Agent.handle_user_message]
  rw [if_neg (show ¬(ast.step = "ask_email") by rw [h]; decide),
      if_neg (show ¬(ast.step = "ask_phone") by rw [h]; decide),
      if_neg (show ¬(ast.step = "confirm") by rw [h]; decide), if_pos h]

/-- On an unknown step the agent machine replies with the fallback. -/
theorem handle_other (ast : Agent.BookingState) (u : String)
    (h1 : ast.step ≠ "ask_email") (h2 : ast.step ≠ "ask_phone")
    (h3 : ast.step ≠ "confirm") (h4 : ast.step ≠ "done") :
    Agent.handle_user_message ast u
      = { state := ast, reply := "I’m not sure what to do next.", action := none } := by
  simp only [Agent.handle_user_message]
  rw [if_neg h1, if_neg h2, if_neg h3, if_neg h4]

/-- C4 amended: the two variants differ in who is authoritative.  In the
step-field variant (`handle_user_message`) the engine's own predicates
gate every write: every stored `email` matches `EMAIL_RE` and every
stored `phone` matches `PHONE_RE`.  In the chat variant the engine
re-validates only `start_iso` (through `_parse_iso_datetime`): every
stored `start_iso` parses; `email`/`phone` there are written on the
extractor's flags alone (see the counterexample). -/
theorem c4_engine_validation
    (ast : Agent.BookingState) (u : String)
    (hA : ∀ e, ast.email = some e → Agent.email_re_match e.toList = true)
    (hB : ∀ p, ast.phone = some p → Agent.phone_re_match p.toList = true)
    (cst : Chat.BookingState) (confirm : Option String) (v : String)
    (ex : Chat.Extracted) (n : Chat.Notes)
    (hC : ∀ s, cst.start_iso = some s → (parse_iso_datetime s).isSome = true) :
    ((∀ e, (Agent.handle_user_message ast u).state.email = some e →
        Agent.email_re_match e.toList = true)
     ∧ (∀ p, (Agent.handle_user_message ast u).state.phone = some p →
        Agent.phone_re_match p.toList = true))
    ∧ (∀ s, (Chat.chat_step cst confirm v ex n).1.start_iso = some s →
        (parse_iso_datetime s).isSome = true) := by
  refine ⟨⟨?_, ?_⟩, ?_⟩
  · intro e he
    by_cases g1 : ast.step = "ask_email"
    · rw [handle_ask_email ast u g1] at he
      by_cases gv : (!Agent.is_valid_email (pystrip u)) = true
      · rw [if_pos gv] at he
        exact hA e he
      · rw [if_neg gv] at he
        have gv' : Agent.is_valid_email (pystrip u) = true := by
          revert gv; cases Agent.is_valid_email (pystrip u) <;> simp
        have h2 := Option.some.inj he
        rw [← h2]
        exact gv'
    · by_cases g2 : ast.step = "ask_phone"
      · rw [handle_ask_phone ast u g2] at he
        by_cases gv : (!Agent.is_valid_phone (pystrip u)) = true
        · rw [if_pos gv] at he
          exact hA e he
        · rw [if_neg gv] at he
          exact hA e he
      · by_cases g3 : ast.step = "confirm"
        · rw [handle_confirm ast u g3] at he
          cases hyn : Agent.parse_yes_no (pystrip u) with
          | none =>
            rw [hyn] at he
            exact hA e he
          | some b =>
            cases b
            · rw [hyn] at he
              exact absurd he (by simp)
            · rw [hyn] at he
              exact hA e he
        · by_cases g4 : ast.step = "done"
          · rw [handle_done ast u g4] at he
            exact hA e he
          · rw [handle_other ast u g1 g2 g3 g4] at he
            exact hA e he
  · intro p hp
    by_cases g1 : ast.step = "ask_email"
    · rw [handle_ask_email ast u g1] at hp
      by_cases gv : (!Agent.is_valid_email (pystrip u)) = true
      · rw [if_pos gv] at hp
        exact hB p hp
      · rw [if_neg gv] at hp
        exact hB p hp
    · by_cases g2 : ast.step = "ask_phone"
      · rw [handle_ask_phone ast u g2] at hp
        by_cases gv : (!Agent.is_valid_phone (pystrip u)) = true
        · rw [if_pos gv] at hp
          exact hB p hp
        · rw [if_neg gv] at hp
          have gv' : Agent.is_valid_phone (pystrip u) = true := by
            revert gv; cases Agent.is_valid_phone (pystrip u) <;> simp
          have h2 := Option.some.inj hp
          rw [← h2]
          exact gv'
      · by_cases g3 : ast.step = "confirm"
        · rw [handle_confirm ast u g3] at hp
          cases hyn : Agent.parse_yes_no (pystrip u) with
          | none =>
            rw [hyn] at hp
            exact hB p hp
          | some b =>
            cases b
            · rw [hyn] at hp
              exact absurd hp (by simp)
            · rw [hyn] at hp
              exact hB p hp
        · by_cases g4 : ast.step = "done"
          · rw [handle_done ast u g4] at hp
            exact hB p hp
          · rw [handle_other ast u g1 g2 g3 g4] at hp
            exact hB p hp
  · intro s hs
    by_cases k1 : cst.step = "ask_email_phone"
    · rw [chat_step_aep_start cst confirm v ex n k1] at hs
      exact hC s hs
    · by_cases k2 : cst.step = "confirm_contact"
      · rw [chat_step_cc cst confirm v ex n k2] at hs
        by_cases kno : confirm = some "no"
        · rw [if_pos kno] at hs
          simp at hs
        · rw [if_neg kno] at hs
          by_cases kys : confirm = some "yes"
          · rw [if_pos kys] at hs
            exact hC s hs
          · rw [if_neg kys] at hs
            exact hC s hs
      · by_cases k3 : cst.step = "ask_time"
        · rw [chat_step_at cst confirm v ex n k3] at hs
          by_cases kok : (ex.start_ok && truthy ex.start_iso) = true
          · rw [if_pos kok] at hs
            cases hq : parse_iso_datetime (ex.start_iso.getD "") with
            | none =>
              rw [hq] at hs
              exact hC s hs
            | some dt =>
              rw [hq] at hs
              have hs' : ex.start_iso = some s := hs
              rw [hs'] at hq
              simp only [Option.getD_some] at hq
              rw [hq]
              rfl
          · rw [if_neg kok] at hs
            exact hC s hs
        · by_cases k4 : cst.step = "ask_title"
          · rw [chat_step_atitle cst confirm v ex n k4] at hs
            exact hC s hs
          · by_cases k5 : cst.step = "confirm_all"
            · rw [chat_step_call cst confirm v ex n k5] at hs
              by_cases kno : confirm = some "no"
              · rw [if_pos kno] at hs
                simp at hs
              · rw [if_neg kno] at hs
                by_cases kys : confirm = some "yes"
                · rw [if_pos kys] at hs
                  exact hC s hs
                · rw [if_neg kys] at hs
                  exact hC s hs
            · by_cases k6 : cst.step = "done"
              · rw [chat_step_done cst confirm v ex n k6] at hs
                exact hC s hs
              · rw [chat_step_other cst confirm v ex n k1 k2 k3 k4 k5 k6] at hs
                exact hC s hs

/-- C4 witness: the preservation theorem applied to the freshly created
initial states of both variants. -/
theorem c4_witness :
    ((∀ e, (Agent.handle_user_message {} "hello").state.email = some e →
        Agent.email_re_match e.toList = true)
     ∧ (∀ p, (Agent.handle_user_message {} "hello").state.phone = some p →
        Agent.phone_re_match p.toList = true))
    ∧ (∀ s, (Chat.chat_step {} none "hello" {} {}).1.start_iso = some s →
        (parse_iso_datetime s).isSome = true) :=
  c4_engine_validation {} "hello" (fun e he => by simp at he) (fun p hp => by simp at hp)
    {} none "hello" {} {} (fun s hs => by simp at hs)

/-- Splitting a concatenation around a middle factor (five-part shape of
the commit reply with the meet link in the middle). -/
theorem append_mid_outer (a b c d e m : String) :
    ∃ p q, ((a ++ ((b ++ m) ++ c)) ++ d) ++ e = p ++ m ++ q :=
  ⟨a ++ b, (c ++ d) ++ e, by simp [String.append_assoc]⟩

/-- Splitting a concatenation around a middle factor (four-part shape of
the commit reply with the calendar link in the middle). -/
theorem append_mid_inner (a b c d m : String) :
    ∃ p q, (a ++ ((b ++ m) ++ c)) ++ d = p ++ m ++ q :=
  ⟨a ++ b, c ++ d, by simp [String.append_assoc]⟩

/-- C1: commit-before-done.  At `confirm_all`, when the resolved
confirmation is `yes` and the contact and time fields are present and
parseable, the step machine leaves the persisted step at `confirm_all`
and the commit phase decides the outcome: a failing external booking
call leaves the **entire state unchanged** (still `confirm_all`, so a
repeated confirmation retries the commit) and relays the failure reason
in the streamed reply text; a succeeding call persists `step = done` and
the returned non-empty links appear in the relayed reply text. -/
theorem c1_commit_before_done (st : Chat.BookingState) (u : String) (ex : Chat.Extracted)
    (n : Chat.Notes)
    (hstep : st.step = "confirm_all")
    (hyes : Chat.resolve_confirm u ex.confirm = some "yes")
    (he : truthy st.email = true) (hp : truthy st.phone = true)
    (hs : truthy st.start_iso = true)
    (hparse : (parse_iso_datetime (st.start_iso.getD "")).isSome = true) :
    (∀ e, (Chat.chat_turn st u ex n (Except.error e)).1 = st
       ∧ ∃ pre, (Chat.chat_turn st u ex n (Except.error e)).2.2 = pre ++ e)
    ∧ (∀ c, (Chat.chat_turn st u ex n (Except.ok c)).1 = { st with step := "done" }
       ∧ (∀ m, c.hangoutLink = some m → m.isEmpty = false →
            ∃ p1 p2, (Chat.chat_turn st u ex n (Except.ok c)).2.2 = p1 ++ m ++ p2)
       ∧ (∀ hl, c.htmlLink = some hl → hl.isEmpty = false →
            ∃ p1 p2, (Chat.chat_turn st u ex n (Except.ok c)).2.2 = p1 ++ hl ++ p2)) := by
  obtain ⟨dt, hdt⟩ := Option.isSome_iff_exists.mp hparse
  have hchat : Chat.chat_step st (some "yes") u ex n
      = (st, "Got it — creating your calendar event now…") := by
    rw [chat_step_call st (some "yes") u ex n hstep]
    rw [if_neg (by decide), if_pos rfl]
  have hcond : st.step = "confirm_all" ∧ (some "yes" : Option String) = some "yes"
      ∧ truthy st.start_iso = true ∧ truthy st.email = true ∧ truthy st.phone = true :=
    ⟨hstep, rfl, hs, he, hp⟩
  have hturn : ∀ cm, Chat.chat_turn st u ex n cm
      = ((Chat.commit_phase st (some "yes") cm).1,
         "Got it — creating your calendar event now…",
         (Chat.commit_phase st (some "yes") cm).2) := by
    intro cm
    simp only [Chat.chat_turn, hyes, hchat]
  constructor
  · intro e
    rw [hturn (Except.error e)]
    unfold Chat.commit_phase
    rw [if_pos hcond, hdt]
    exact ⟨rfl, "\n\n⚠️ Failed to create event: ", rfl⟩
  · intro c
    rw [hturn (Except.ok c)]
    unfold Chat.commit_phase
    rw [if_pos hcond, hdt]
    refine ⟨rfl, ?_, ?_⟩
    · intro m hm hme
      simp only [hm, hme, Bool.false_eq_true, if_false, ite_false]
      exact append_mid_outer _ _ _ _ _ _
    · intro hl hh hhe
      simp only [hh, hhe, Bool.false_eq_true, if_false, ite_false]
      exact append_mid_inner _ _ _ _ _

/-- C1 witness: a filled state at `confirm_all` with an explicit `yes`;
a failing commit keeps the state, a succeeding one reaches `done` with
both links relayed. -/
theorem c1_witness :
    ((Chat.chat_turn
        { step := "confirm_all", email := some "a@b.com", phone := some "+14155552671",
          start_iso := some "2026-02-16T14:00:00-08:00", title := some "Sync" }
        "yes" {} {} (Except.error "boom")).1
      = { step := "confirm_all", email := some "a@b.com", phone := some "+14155552671",
          start_iso := some "2026-02-16T14:00:00-08:00", title := some "Sync" }
      ∧ ∃ pre, (Chat.chat_turn
        { step := "confirm_all", email := some "a@b.com", phone := some "+14155552671",
          start_iso := some "2026-02-16T14:00:00-08:00", title := some "Sync" }
        "yes" {} {} (Except.error "boom")).2.2 = pre ++ "boom")
    ∧ ((Chat.chat_turn
        { step := "confirm_all", email := some "a@b.com", phone := some "+14155552671",
          start_iso := some "2026-02-16T14:00:00-08:00", title := some "Sync" }
        "yes" {} {} (Except.ok { htmlLink := some "HL", hangoutLink := some "ML" })).1
      = { step := "done", email := some "a@b.com", phone := some "+14155552671",
          start_iso := some "2026-02-16T14:00:00-08:00", title := some "Sync" }
      ∧ ∃ p1 p2, (Chat.chat_turn
        { step := "confirm_all", email := some "a@b.com", phone := some "+14155552671",
          start_iso := some "2026-02-16T14:00:00-08:00", title := some "Sync" }
        "yes" {} {} (Except.ok { htmlLink := some "HL", hangoutLink := some "ML" })).2.2
          = p1 ++ "ML" ++ p2) := by
  have h := c1_commit_before_done
      { step := "confirm_all", email := some "a@b.com", phone := some "+14155552671",
        start_iso := some "2026-02-16T14:00:00-08:00", title := some "Sync" }
      "yes" {} {} rfl (by decide) rfl rfl rfl (by decide)
  refine ⟨h.1 "boom", ?_, ?_⟩
  · exact (h.2 { htmlLink := some "HL", hangoutLink := some "ML" }).1
  · exact (h.2 { htmlLink := some "HL", hangoutLink := some "ML" }).2.1 "ML" rfl rfl
